import Mathlib

/-!
Verification of the BYOB pricing engine, cart operations, checkout
orchestration and access resolution of the ImmigreatAI web-app.

The definitions below are a shallow embedding of the TypeScript source:
  * `src/lib/types/index.ts`          — data model (CartItem, CartSummary, …)
  * `src/lib/services/cart.service.ts`— CartService (calculateCartTotals,
                                        applyBYOBRules, addToCart, removeFromCart)
  * `src/app/api/cart/add/route.ts`   — the add-line HTTP operation
  * `src/app/api/cart/remove/route.ts`— the remove-line HTTP operation
  * `src/lib/services/course-ssg.service.ts` — CheckoutService
  * `src/lib/services/purchase-tracking-service.ts` — PurchaseTrackingService

Numbers: JS numbers are modelled as exact rationals (ℚ); the discount
arithmetic in the source (`0.13`, `0.18`, `* (1 - rate)`) is exact on the
decimal inputs involved.  Timestamps: the source compares ISO-8601 strings
(same format, so string order agrees with time order) or epoch millis;
both are modelled as `Nat` instants.
-/

namespace ImmigreatAI

/-- TS: `type: 'course' | 'bundle'` — the cart line discriminator. -/
inductive ItemType
  | course
  | bundle
deriving DecidableEq, Repr

/-- TS: `type BYOBTier = null | '5plus' | '10plus'`; the `null` case is
modelled as `Option BYOBTier = none`. -/
inductive BYOBTier
  | fivePlus
  | tenPlus
deriving DecidableEq, Repr

/-- TS interface `CartItem` (src/lib/types/index.ts). -/
structure CartItem where
  type : ItemType
  id : String
  title : String
  thumbnail_url : Option String
  price : ℚ
  original_price : ℚ
  enrollment_id : String
  validity_months : Nat
deriving DecidableEq, Repr

/-- TS interface `CartSummary` (src/lib/types/index.ts). -/
structure CartSummary where
  subtotal : ℚ
  discount_amount : ℚ
  total : ℚ
  byob_tier : Option BYOBTier
deriving DecidableEq, Repr

/-- TS interface `CartData` (src/lib/types/index.ts): `summary` is optional
(`summary?: CartSummary`). -/
structure CartData where
  items : List CartItem
  summary : Option CartSummary
deriving DecidableEq, Repr

/-- The number of course lines in a cart, `courseItems.length` in the source
(`cart.service.ts` computes it as `items.filter(i => i.type === 'course').length`
in both `calculateCartTotals` and `applyBYOBRules`). -/
def courseLineCount (items : List CartItem) : Nat :=
  (items.filter (fun item => item.type = ItemType.course)).length

/-- Model of `CartService.calculateCartTotals` (cart.service.ts lines 122-147):
subtotal is reduced over ALL lines; the discount rate and tier are driven
by the course-line count alone; the discount is applied to the whole-cart
subtotal. -/
def calculateCartTotals (items : List CartItem) : CartSummary :=
  let subtotal : ℚ := items.foldl (fun sum item => sum + item.original_price) 0
  let courseCount := courseLineCount items
  let discountRate : ℚ :=
    if courseCount ≥ 10 then 18/100 else if courseCount ≥ 5 then 13/100 else 0
  let byobTier : Option BYOBTier :=
    if courseCount ≥ 10 then some BYOBTier.tenPlus
    else if courseCount ≥ 5 then some BYOBTier.fivePlus
    else none
  let discountAmount := subtotal * discountRate
  let total := subtotal - discountAmount
  { subtotal := subtotal
    discount_amount := discountAmount
    total := total
    byob_tier := byobTier }

/-- The per-course-line update performed inside `applyBYOBRules`
(cart.service.ts lines 162-178): recompute the discounted unit price from
the original price and set the tier validity. -/
def byobCourseUpdate (courseCount : Nat) (item : CartItem) : CartItem :=
  let validityMonths := if courseCount ≥ 10 then 9 else if courseCount ≥ 5 then 6 else 3
  let discountRate : ℚ :=
    if courseCount ≥ 10 then 18/100 else if courseCount ≥ 5 then 13/100 else 0
  let discountedPrice := item.original_price * (1 - discountRate)
  { item with validity_months := validityMonths, price := discountedPrice }

/-- Model of `CartService.applyBYOBRules` (cart.service.ts lines 149-181): courses are
repriced and get the tier validity, bundles pass through; the result lists
all course lines first, then all bundle lines. -/
def applyBYOBRules (items : List CartItem) : List CartItem :=
  let courseItems := items.filter (fun item => item.type = ItemType.course)
  let bundleItems := items.filter (fun item => item.type = ItemType.bundle)
  let courseCount := courseItems.length
  let updatedCourseItems := courseItems.map (byobCourseUpdate courseCount)
  updatedCourseItems ++ bundleItems

/-- A course line priced at 100, as in spec Scenario B. -/
def courseAt100 (n : String) : CartItem :=
  { type := ItemType.course
    id := n
    title := n
    thumbnail_url := none
    price := 100
    original_price := 100
    enrollment_id := "enr"
    validity_months := 3 }

/-- Spec Scenario B: a cart of exactly 5 course lines each with original
price 100. -/
def scenarioB : List CartItem :=
  [courseAt100 "c1", courseAt100 "c2", courseAt100 "c3", courseAt100 "c4", courseAt100 "c5"]

/-! ## Cart operations

`addToCart` / `removeFromCart` are `CartService` methods; `addLine` /
`removeLine` are the HTTP operations (`src/app/api/cart/add/route.ts`,
`src/app/api/cart/remove/route.ts`) that wrap them.  The per-user cart
state is an `Option CartData` (`none` = no cart row / no `cart_data`).
The routes' auth and ownership checks involve external collaborators and
are not part of the modelled claims. -/

/-- Model of `CartService.addToCart` (cart.service.ts lines 61-93): if the `(type,id)`
pair is already present the existing items are kept as-is, otherwise the
item is appended; either way BYOB rules and totals are recomputed and the
snapshot persisted. -/
def addToCart (currentCart : Option CartData) (item : CartItem) : CartData :=
  let items : List CartItem :=
    match currentCart with
    | some cd =>
        if cd.items.any (fun existingItem =>
            existingItem.id = item.id ∧ existingItem.type = item.type) then
          cd.items
        else
          cd.items ++ [item]
    | none => [item]
  let updatedItems := applyBYOBRules items
  { items := updatedItems, summary := some (calculateCartTotals updatedItems) }

/-- Model of `CartService.removeFromCart` (cart.service.ts lines 95-120): throws
`'Cart not found'` when there is no cart data; otherwise filters the
`(type,id)` pair out and recomputes BYOB rules and totals. -/
def removeFromCart (currentCart : Option CartData) (itemId : String)
    (itemType : ItemType) : Except String CartData :=
  match currentCart with
  | none => Except.error "Cart not found"
  | some cd =>
      let items := cd.items.filter (fun item => ¬(item.id = itemId ∧ item.type = itemType))
      let updatedItems := applyBYOBRules items
      Except.ok { items := updatedItems, summary := some (calculateCartTotals updatedItems) }

/-- The error classes the two cart routes respond with. -/
inductive CartRouteError
  | DuplicateItem -- add route: 409 "Item already in cart"
  | CartEmpty     -- remove route: 404 "Cart is empty"
  | NotFound      -- remove route: 404 "Item not found in cart"
  | ServerError   -- either route's catch-all 500
deriving DecidableEq, Repr

/-- The add-line operation, POST `/api/cart/add` (route lines 82-108): the
route rejects a `(type,id)` already present in the cart with 409 before
calling `CartService.addToCart`.  Returns the persisted cart state and the
error, if any. -/
def addLine (st : Option CartData) (item : CartItem) :
    Option CartData × Option CartRouteError :=
  match st with
  | some cd =>
      if cd.items.any (fun cartItem => cartItem.id = item.id ∧ cartItem.type = item.type) then
        (some cd, some CartRouteError.DuplicateItem)
      else
        (some (addToCart (some cd) item), none)
  | none => (some (addToCart none item), none)

/-- The remove-line operation, DELETE `/api/cart/remove` (route lines 37-66):
404 "Cart is empty" when there is no cart data, 404 "Item not found in
cart" when the `(type,id)` pair is absent, otherwise
`CartService.removeFromCart`. -/
def removeLine (st : Option CartData) (itemId : String) (itemType : ItemType) :
    Option CartData × Option CartRouteError :=
  match st with
  | none => (none, some CartRouteError.CartEmpty)
  | some cd =>
      if cd.items.any (fun item => item.id = itemId ∧ item.type = itemType) then
        match removeFromCart (some cd) itemId itemType with
        | Except.ok cd' => (some cd', none)
        | Except.error _ => (some cd, some CartRouteError.ServerError)
      else
        (some cd, some CartRouteError.NotFound)

/-- A one-line cart used as concrete input for the cart-operation witnesses. -/
def oneLineCart : CartData :=
  { items := [courseAt100 "c1"], summary := none }

/-! ## Checkout orchestration (`CheckoutService`, course-ssg.service.ts)

The `user_purchases` table is modelled as a `List Purchase`; an update
`.eq('id', purchaseId)` is a map over that list.  Row-creation ids and
`new Date()` instants are explicit parameters. -/

/-- TS: `type ProcessingStatus = 'pending' | 'processing' | 'completed' |
'partial' | 'failed'`; `'partial'` is the constructor `partialDone`. -/
inductive ProcessingStatus
  | pending
  | processing
  | completed
  | partialDone
  | failed
deriving DecidableEq, Repr

/-- The fields of the TS `QueueMetadata` interface written by the modelled
code paths (`createPendingPurchase`, `completePurchasePayment`); all are
optional in the source. -/
structure QueueMetadata where
  created_from : Option String
  checkout_type : Option String
  cart_item_count : Option Nat
  payment_completed_at : Option Nat
  session_mode : Option String
  payment_status : Option String
deriving DecidableEq, Repr

/-- An entry of `PurchaseItemsData.courses` (src/lib/types/index.ts). -/
structure PurchasedCourse where
  course_id : String
  title : String
  price_paid : ℚ
  enrollment_id_to_use : String
  validity_months : Nat
deriving DecidableEq, Repr

/-- An entry of `PurchaseItemsData.bundles` (src/lib/types/index.ts). -/
structure PurchasedBundle where
  bundle_id : String
  title : String
  price_paid : ℚ
  enrollment_id : String
  validity_months : Nat
  course_ids : List String
deriving DecidableEq, Repr

/-- Model of `PurchaseItemsData.byob_applied` (src/lib/types/index.ts). -/
structure BYOBApplied where
  tier : BYOBTier
  discount_rate : ℚ
  original_validity : Nat
  upgraded_validity : Nat
deriving DecidableEq, Repr

/-- Model of `PurchaseItemsData.discount_details` (src/lib/types/index.ts). -/
structure DiscountDetails where
  subtotal : ℚ
  discount_amount : ℚ
  total : ℚ
deriving DecidableEq, Repr

/-- TS interface `PurchaseItemsData` (src/lib/types/index.ts). -/
structure PurchaseItemsData where
  courses : List PurchasedCourse
  bundles : List PurchasedBundle
  byob_applied : Option BYOBApplied
  discount_details : DiscountDetails
deriving DecidableEq, Repr

/-- A `user_purchases` row (TS interface `UserPurchase`); the Stripe ids and
the timestamp columns are nullable until the corresponding step sets them. -/
structure Purchase where
  id : String
  clerk_id : String
  stripe_session_id : Option String
  stripe_payment_intent_id : Option String
  stripe_customer_id : Option String
  purchase_type : String
  amount_paid : ℚ
  currency : String
  items_purchased : PurchaseItemsData
  processing_status : ProcessingStatus
  queue_metadata : QueueMetadata
  purchased_at : Option Nat
  processing_started_at : Option Nat
  processing_completed_at : Option Nat
  updated_at : Nat
deriving DecidableEq, Repr

/-- Model of `CheckoutService.getBYOBDiscountRate` (course-ssg.service.ts lines
841-850); the `null` tier is `none`. -/
def getBYOBDiscountRate : Option BYOBTier → ℚ
  | some BYOBTier.tenPlus => 18/100
  | some BYOBTier.fivePlus => 13/100
  | none => 0

/-- Model of `CheckoutService.getBYOBValidityUpgrade` (course-ssg.service.ts lines
855-864). -/
def getBYOBValidityUpgrade : Option BYOBTier → Nat
  | some BYOBTier.tenPlus => 9
  | some BYOBTier.fivePlus => 6
  | none => 3

/-- Model of `CheckoutService.transformCartToItemsData` (course-ssg.service.ts lines
761-800); `summary?.x || 0` is `(summary.map x).getD 0` and the
`byob_tier ? {...} : undefined` ternary is the `Option.bind`/`Option.map`
chain. -/
def transformCartToItemsData (cartData : CartData) : PurchaseItemsData :=
  { courses := (cartData.items.filter (fun item => item.type = ItemType.course)).map
      (fun item =>
        { course_id := item.id
          title := item.title
          price_paid := item.price
          enrollment_id_to_use := item.enrollment_id
          validity_months := item.validity_months })
    bundles := (cartData.items.filter (fun item => item.type = ItemType.bundle)).map
      (fun item =>
        { bundle_id := item.id
          title := item.title
          price_paid := item.price
          enrollment_id := item.enrollment_id
          validity_months := item.validity_months
          course_ids := [] })
    byob_applied := cartData.summary.bind (fun s =>
      s.byob_tier.map (fun t =>
        { tier := t
          discount_rate := getBYOBDiscountRate (some t)
          original_validity := 3
          upgraded_validity := getBYOBValidityUpgrade (some t) }))
    discount_details :=
      { subtotal := (cartData.summary.map CartSummary.subtotal).getD 0
        discount_amount := (cartData.summary.map CartSummary.discount_amount).getD 0
        total := (cartData.summary.map CartSummary.total).getD 0 } }

/-- Model of `CheckoutService.createPendingPurchase` (course-ssg.service.ts lines
664-699): inserts a `user_purchases` row in `'pending'` status with the
frozen items snapshot; `newId` is the id the insert generates and `now`
the insertion instant. -/
def createPendingPurchase (clerkId : String) (cartData : CartData)
    (purchaseType : String) (newId : String) (now : Nat) : Purchase :=
  { id := newId
    clerk_id := clerkId
    stripe_session_id := none
    stripe_payment_intent_id := none
    stripe_customer_id := none
    purchase_type := purchaseType
    amount_paid := (cartData.summary.map CartSummary.total).getD 0
    currency := "USD"
    items_purchased := transformCartToItemsData cartData
    processing_status := ProcessingStatus.pending
    queue_metadata :=
      { created_from := some "checkout_session"
        checkout_type := some purchaseType
        cart_item_count := some cartData.items.length
        payment_completed_at := none
        session_mode := none
        payment_status := none }
    purchased_at := none
    processing_started_at := none
    processing_completed_at := none
    updated_at := now }

/-- The part of a retrieved Stripe checkout session that
`handleSuccessfulPayment` / `completePurchasePayment` read:
`payment_status`, `metadata.purchase_id`, the expanded
`payment_intent.id`, the customer id, and `mode`. -/
structure StripeSession where
  id : String
  payment_status : String
  metadata_purchase_id : Option String
  payment_intent_id : Option String
  customer_id : Option String
  mode : String
deriving DecidableEq, Repr

/-- The row update `CheckoutService.completePurchasePayment` performs on
the row whose id matches (course-ssg.service.ts lines 733-747): every
touched column is overwritten with a value derived only from the session
and the call instant, and `queue_metadata` is replaced whole. -/
def completePurchaseUpdate (purchaseId : String) (session : StripeSession)
    (now : Nat) (p : Purchase) : Purchase :=
  if p.id = purchaseId then
    { p with
      stripe_payment_intent_id := session.payment_intent_id
      stripe_customer_id := session.customer_id
      processing_status := ProcessingStatus.pending
      purchased_at := some now
      updated_at := now
      queue_metadata :=
        { created_from := none
          checkout_type := none
          cart_item_count := none
          payment_completed_at := some now
          session_mode := some session.mode
          payment_status := some session.payment_status } }
  else p

/-- Model of `CheckoutService.completePurchasePayment` (course-ssg.service.ts lines
726-756): `update(...).eq('id', purchaseId)` over the `user_purchases`
table. -/
def completePurchasePayment (db : List Purchase) (purchaseId : String)
    (session : StripeSession) (now : Nat) : List Purchase :=
  db.map (completePurchaseUpdate purchaseId session now)

/-- The two defended failure modes of `handleSuccessfulPayment`:
`'Payment not completed'` and `'Purchase ID not found in session
metadata'`. -/
inductive PaymentError
  | PaymentNotCompleted
  | MetadataMissing
deriving DecidableEq, Repr

/-- Model of `CheckoutService.handleSuccessfulPayment` (course-ssg.service.ts lines
625-659), given the session the processor returns for the requested
session id (the processor's stored session is fixed across redeliveries of
the same id).  Returns the purchase table after the call together with the
`{success, purchaseId?, error?}` result. -/
def handleSuccessfulPayment (session : StripeSession) (db : List Purchase)
    (now : Nat) : List Purchase × Except PaymentError String :=
  if session.payment_status ≠ "paid" then
    (db, Except.error PaymentError.PaymentNotCompleted)
  else
    match session.metadata_purchase_id with
    | none => (db, Except.error PaymentError.MetadataMissing)
    | some purchaseId =>
        (completePurchasePayment db purchaseId session now, Except.ok purchaseId)

/-- Model of `updatePurchaseStatus` (course-ssg.service.ts lines 891-921, same body
in purchase-tracking-service.ts lines 114-147): overwrites
`processing_status` with the requested status unconditionally — there is
no read of, or guard on, the row's current status — and stamps
`processing_started_at` / `processing_completed_at` for the
processing/terminal statuses. -/
def updatePurchaseStatus (db : List Purchase) (purchaseId : String)
    (status : ProcessingStatus) (queueMetadata : Option QueueMetadata)
    (now : Nat) : List Purchase :=
  db.map (fun p =>
    if p.id = purchaseId then
      { p with
        processing_status := status
        updated_at := now
        queue_metadata := queueMetadata.getD p.queue_metadata
        processing_started_at :=
          if status = ProcessingStatus.processing then some now
          else p.processing_started_at
        processing_completed_at :=
          if status = ProcessingStatus.completed ∨ status = ProcessingStatus.failed
              ∨ status = ProcessingStatus.partialDone then some now
          else p.processing_completed_at }
    else p)

/-- An unpaid session and a paid session without `purchase_id` metadata,
concrete inputs for the C5 witness. -/
def sessionUnpaid : StripeSession :=
  { id := "cs_1", payment_status := "unpaid", metadata_purchase_id := some "p1"
    payment_intent_id := some "pi_1", customer_id := some "cus_1", mode := "payment" }

def sessionNoMetadata : StripeSession :=
  { id := "cs_2", payment_status := "paid", metadata_purchase_id := none
    payment_intent_id := some "pi_2", customer_id := some "cus_2", mode := "payment" }

/-- A minimal cart snapshot, concrete input for purchase-creation. -/
def simpleCartData : CartData :=
  { items := [], summary := none }

/-- A freshly created pending purchase with id `"p1"`. -/
def pendingPurchase0 : Purchase :=
  createPendingPurchase "u1" simpleCartData "course" "p1" 0

/-! ## Access resolution (`PurchaseTrackingService`, purchase-tracking-service.ts)

The `user_enrollments` table is a `List UserEnrollment`.  The source
compares `expires_at` ISO strings against `new Date().toISOString()`;
`gte('expires_at', now)` is `now ≤ expires_at` and `expires_at > now` is
`now < expires_at` on the `Nat` instants. -/

/-- One element of `BundleCourseData.included_courses`
(src/lib/types/index.ts). -/
structure IncludedCourse where
  course_id : String
  course_title : String
  learnworlds_course_id : String
deriving DecidableEq, Repr

/-- TS interface `BundleCourseData` (src/lib/types/index.ts). -/
structure BundleCourseData where
  included_courses : List IncludedCourse
deriving DecidableEq, Repr

/-- A `user_enrollments` row (TS interface `UserEnrollment`), restricted to
the columns the modelled queries read. -/
structure UserEnrollment where
  id : String
  clerk_id : String
  purchase_id : String
  enrollment_type : ItemType
  item_id : String
  item_title : String
  validity_months : Nat
  expires_at : Nat
  bundle_courses : Option BundleCourseData
  is_active : Bool
deriving DecidableEq, Repr

/-- TS interface `CourseAccessInfo` (src/lib/types/index.ts). -/
structure CourseAccessInfo where
  has_access : Bool
  access_type : String
  expires_at : Option Nat
  enrollment_id : Option String
  days_until_expiry : Option Int
  bundle_id : Option String
  purchase_id : Option String
deriving DecidableEq, Repr

/-- Model of `PurchaseTrackingService.calculateDaysUntilExpiry`
(purchase-tracking-service.ts lines 456-461):
`Math.ceil((expiry - now) / 86400000)`. -/
def calculateDaysUntilExpiry (expiresAt now : Nat) : Int :=
  Rat.ceil (((expiresAt : ℚ) - (now : ℚ)) / (1000 * 60 * 60 * 24))

/-- The filter of the direct-enrollment query in
`PurchaseTrackingService.checkCourseAccess` (purchase-tracking-service.ts
lines 244-252): `clerk_id`, `enrollment_type='course'`, `item_id`,
`is_active=true`, and `gte('expires_at', now)` — an INCLUSIVE expiry
comparison. -/
def directPred (clerkId courseId : String) (now : Nat) (e : UserEnrollment) : Bool :=
  e.clerk_id = clerkId ∧ e.enrollment_type = ItemType.course ∧
    e.item_id = courseId ∧ e.is_active = true ∧ now ≤ e.expires_at

/-- The filter of the bundle-enrollment query in `checkCourseAccess`
(purchase-tracking-service.ts lines 271-277), likewise with
`gte('expires_at', now)`. -/
def bundlePred (clerkId : String) (now : Nat) (e : UserEnrollment) : Bool :=
  e.clerk_id = clerkId ∧ e.enrollment_type = ItemType.bundle ∧
    e.is_active = true ∧ now ≤ e.expires_at

/-- The loop body of `checkCourseAccess` (purchase-tracking-service.ts
lines 284-289): `enrollment.bundle_courses?.included_courses.some(c =>
c.course_id === courseId)`. -/
def bundleContainsCourse (courseId : String) (e : UserEnrollment) : Bool :=
  match e.bundle_courses with
  | some bc => bc.included_courses.any (fun c => c.course_id = courseId)
  | none => false

/-- PostgREST `.single()`: the row when the result set has exactly one row;
zero or several rows produce error `PGRST116` ("JSON object requested,
multiple (or no) rows returned"), which `checkCourseAccess` swallows
(`directError.code !== 'PGRST116'` guard, lines 254-256), leaving the
direct enrollment `null`. -/
def singleRow {α : Type} : List α → Option α
  | [x] => some x
  | _ => none

/-- Model of `PurchaseTrackingService.checkCourseAccess`
(purchase-tracking-service.ts lines 239-319): direct course enrollment
first (a `.single()` query), then the buyer's bundle enrollments in table
order, first bundle whose `included_courses` snapshot contains the course
wins, else no access. -/
def checkCourseAccess (db : List UserEnrollment) (clerkId courseId : String)
    (now : Nat) : CourseAccessInfo :=
  match singleRow (db.filter (directPred clerkId courseId now)) with
  | some directEnrollment =>
      { has_access := true
        access_type := "direct"
        expires_at := some directEnrollment.expires_at
        enrollment_id := some directEnrollment.id
        days_until_expiry := some (calculateDaysUntilExpiry directEnrollment.expires_at now)
        bundle_id := none
        purchase_id := some directEnrollment.purchase_id }
  | none =>
      match (db.filter (bundlePred clerkId now)).find? (bundleContainsCourse courseId) with
      | some enrollment =>
          { has_access := true
            access_type := "bundle"
            expires_at := some enrollment.expires_at
            enrollment_id := some enrollment.id
            days_until_expiry := some (calculateDaysUntilExpiry enrollment.expires_at now)
            bundle_id := some enrollment.item_id
            purchase_id := some enrollment.purchase_id }
      | none =>
          { has_access := false
            access_type := "none"
            expires_at := none
            enrollment_id := none
            days_until_expiry := none
            bundle_id := none
            purchase_id := none }

/-- The record `PurchaseTrackingService.getUserPurchaseStats` returns. -/
structure PurchaseStats where
  totalPurchases : Nat
  totalSpent : ℚ
  activeEnrollments : Nat
  expiredEnrollments : Nat
  processingPurchases : Nat
deriving DecidableEq, Repr

/-- Model of `PurchaseTrackingService.getUserPurchaseStats`
(purchase-tracking-service.ts lines 476-516): both queries filter by
`clerk_id`; an enrollment is counted active iff `is_active &&
expires_at > now` — a STRICT expiry comparison — and expired iff
`!is_active || expires_at <= now`. -/
def getUserPurchaseStats (purchasesDb : List Purchase)
    (enrollmentsDb : List UserEnrollment) (clerkId : String) (now : Nat) :
    PurchaseStats :=
  let purchases := purchasesDb.filter (fun p => p.clerk_id = clerkId)
  let enrollments := enrollmentsDb.filter (fun e => e.clerk_id = clerkId)
  { totalPurchases := purchases.length
    totalSpent := purchases.foldl (fun sum p => sum + p.amount_paid) 0
    activeEnrollments :=
      (enrollments.filter (fun e => e.is_active = true ∧ now < e.expires_at)).length
    expiredEnrollments :=
      (enrollments.filter (fun e => ¬(e.is_active = true) ∨ e.expires_at ≤ now)).length
    processingPurchases :=
      (purchases.filter (fun p => p.processing_status = ProcessingStatus.processing)).length }

/-- An active direct course enrollment expiring exactly at instant 100. -/
def boundaryEnrollment : UserEnrollment :=
  { id := "e1"
    clerk_id := "u1"
    purchase_id := "p1"
    enrollment_type := ItemType.course
    item_id := "c1"
    item_title := "Course 1"
    validity_months := 3
    expires_at := 100
    bundle_courses := none
    is_active := true }

/-- An active direct course enrollment for course `"c1"`. -/
def directEnrollment1 : UserEnrollment :=
  { id := "d1"
    clerk_id := "u1"
    purchase_id := "p1"
    enrollment_type := ItemType.course
    item_id := "c1"
    item_title := "Course 1"
    validity_months := 3
    expires_at := 200
    bundle_courses := none
    is_active := true }

/-- A second active direct course enrollment for the same course (e.g. a
repurchase); `createEnrollment` is append-only and enforces no
uniqueness. -/
def directEnrollment2 : UserEnrollment :=
  { id := "d2"
    clerk_id := "u1"
    purchase_id := "p2"
    enrollment_type := ItemType.course
    item_id := "c1"
    item_title := "Course 1"
    validity_months := 3
    expires_at := 300
    bundle_courses := none
    is_active := true }

/-- An active bundle enrollment whose course snapshot contains `"c1"`. -/
def bundleEnrollment1 : UserEnrollment :=
  { id := "b1"
    clerk_id := "u1"
    purchase_id := "p3"
    enrollment_type := ItemType.bundle
    item_id := "bundle1"
    item_title := "Bundle 1"
    validity_months := 1
    expires_at := 150
    bundle_courses := some
      { included_courses :=
          [{ course_id := "c1", course_title := "Course 1", learnworlds_course_id := "lw1" }] }
    is_active := true }

/-! ## Lemmas and claim theorems -/

lemma foldl_add_original_price (items : List CartItem) (a : ℚ) :
    items.foldl (fun sum item => sum + item.original_price) a
      = a + (items.map CartItem.original_price).sum := by
  induction items generalizing a with
  | nil => simp
  | cons i t ih =>
      simp only [List.foldl_cons, List.map_cons, List.sum_cons, ih]
      ring

lemma course_bundle_partition_length (items : List CartItem) :
    (items.filter (fun item => item.type = ItemType.course)).length
      + (items.filter (fun item => item.type = ItemType.bundle)).length
      = items.length := by
  induction items with
  | nil => rfl
  | cons i t ih =>
      cases h : i.type <;>
        simp [List.filter_cons, h, Nat.succ_eq_add_one] <;> omega

/-- C1: for every list of cart lines, the summary computed by
`calculateCartTotals` has `subtotal` = the sum of `original_price` over ALL
lines (course and bundle alike), `discount_amount` = `subtotal` times the
tier rate (0 below 5 course lines, 13/100 from 5 to 9, 18/100 from 10 up),
and `total` = `subtotal - discount_amount`; and on the concrete cart of 5
courses priced 100 the tier is `'5plus'`, the discount is 65 and the total
is 435. -/
theorem calculateCartTotals_summary_spec (items : List CartItem) :
    (calculateCartTotals items).subtotal = (items.map CartItem.original_price).sum ∧
    (calculateCartTotals items).discount_amount
      = (calculateCartTotals items).subtotal *
        (if courseLineCount items ≥ 10 then (18 : ℚ)/100
         else if courseLineCount items ≥ 5 then (13 : ℚ)/100 else 0) ∧
    (calculateCartTotals items).total
      = (calculateCartTotals items).subtotal - (calculateCartTotals items).discount_amount ∧
    (calculateCartTotals scenarioB).byob_tier = some BYOBTier.fivePlus ∧
    (calculateCartTotals scenarioB).discount_amount = 65 ∧
    (calculateCartTotals scenarioB).total = 435 := by
  refine ⟨?_, rfl, rfl, rfl, ?_, ?_⟩
  · simp [calculateCartTotals, foldl_add_original_price]
  · norm_num [calculateCartTotals, courseLineCount, scenarioB, courseAt100]
  · norm_num [calculateCartTotals, courseLineCount, scenarioB, courseAt100]

/-- C2: `applyBYOBRules` sets each course line's price to
`original_price * (1 - discountRate)` and its validity to 3/6/9 months by
the inclusive thresholds at 5 and 10 course lines, while every bundle line
passes through with its own price and validity unchanged. -/
theorem applyBYOBRules_reprices_courses_passes_bundles (items : List CartItem) :
    applyBYOBRules items
      = (items.filter (fun item => item.type = ItemType.course)).map
          (fun item =>
            { item with
              validity_months :=
                if courseLineCount items ≥ 10 then 9
                else if courseLineCount items ≥ 5 then 6 else 3
              price :=
                item.original_price *
                  (1 - (if courseLineCount items ≥ 10 then (18 : ℚ)/100
                        else if courseLineCount items ≥ 5 then (13 : ℚ)/100 else 0)) })
        ++ items.filter (fun item => item.type = ItemType.bundle) := rfl

/-- C10: `applyBYOBRules` keeps exactly the input lines — none added, none
dropped — output being the course lines (in their original relative order,
each updated only in `price` and `validity_months`) followed by the bundle
lines (fully unchanged, in their original relative order); the per-course
update preserves every other field. -/
theorem applyBYOBRules_frame (items : List CartItem) :
    (applyBYOBRules items).length = items.length ∧
    applyBYOBRules items
      = (items.filter (fun item => item.type = ItemType.course)).map
          (byobCourseUpdate (courseLineCount items))
        ++ items.filter (fun item => item.type = ItemType.bundle) ∧
    (∀ (c : Nat) (item : CartItem),
      (byobCourseUpdate c item).type = item.type ∧
      (byobCourseUpdate c item).id = item.id ∧
      (byobCourseUpdate c item).title = item.title ∧
      (byobCourseUpdate c item).thumbnail_url = item.thumbnail_url ∧
      (byobCourseUpdate c item).original_price = item.original_price ∧
      (byobCourseUpdate c item).enrollment_id = item.enrollment_id) := by
  refine ⟨?_, rfl, fun c item => ⟨rfl, rfl, rfl, rfl, rfl, rfl⟩⟩
  simp only [applyBYOBRules, List.length_append, List.length_map]
  exact course_bundle_partition_length items

/-- C3: adding a line whose `(kind,itemId)` pair is already present fails
with `DuplicateItem` and leaves the cart — in particular its line count —
unchanged (no write is performed). -/
theorem addLine_duplicate_fails (cd : CartData) (item : CartItem)
    (hdup : cd.items.any (fun cartItem =>
      cartItem.id = item.id ∧ cartItem.type = item.type) = true) :
    addLine (some cd) item = (some cd, some CartRouteError.DuplicateItem) ∧
    ∀ cd', (addLine (some cd) item).1 = some cd' → cd'.items.length = cd.items.length := by
  have h : addLine (some cd) item = (some cd, some CartRouteError.DuplicateItem) := by
    simp only [addLine, hdup, if_true]
  refine ⟨h, fun cd' hcd' => ?_⟩
  rw [h] at hcd'
  cases hcd'
  rfl

theorem addLine_duplicate_fails_witness :
    addLine (some oneLineCart) (courseAt100 "c1")
      = (some oneLineCart, some CartRouteError.DuplicateItem) :=
  (addLine_duplicate_fails oneLineCart (courseAt100 "c1") (by decide)).1

/-- C9: on an existing cart, removing a `(kind,itemId)` pair that is not
among the cart's lines fails with `NotFound` (404 "Item not found in
cart") and the cart state is unchanged. -/
theorem removeLine_missing_fails (cd : CartData) (itemId : String) (itemType : ItemType)
    (habsent : cd.items.any (fun item => item.id = itemId ∧ item.type = itemType) = false) :
    removeLine (some cd) itemId itemType = (some cd, some CartRouteError.NotFound) := by
  simp only [removeLine, habsent, Bool.false_eq_true, if_false]

theorem removeLine_missing_fails_witness :
    removeLine (some oneLineCart) "c2" ItemType.course
      = (some oneLineCart, some CartRouteError.NotFound) :=
  removeLine_missing_fails oneLineCart "c2" ItemType.course (by decide)

lemma completePurchaseUpdate_comp (purchaseId : String) (session : StripeSession)
    (t1 t2 : Nat) (p : Purchase) :
    completePurchaseUpdate purchaseId session t2
        (completePurchaseUpdate purchaseId session t1 p)
      = completePurchaseUpdate purchaseId session t2 p := by
  unfold completePurchaseUpdate
  by_cases hp : p.id = purchaseId
  · simp [hp]
  · simp [hp]

lemma completePurchasePayment_twice (db : List Purchase) (purchaseId : String)
    (session : StripeSession) (t1 t2 : Nat) :
    completePurchasePayment (completePurchasePayment db purchaseId session t1)
        purchaseId session t2
      = completePurchasePayment db purchaseId session t2 := by
  simp only [completePurchasePayment, List.map_map]
  have h : completePurchaseUpdate purchaseId session t2
        ∘ completePurchaseUpdate purchaseId session t1
      = completePurchaseUpdate purchaseId session t2 :=
    funext (fun p => completePurchaseUpdate_comp purchaseId session t1 t2 p)
  rw [h]

lemma completePurchasePayment_length (db : List Purchase) (purchaseId : String)
    (session : StripeSession) (now : Nat) :
    (completePurchasePayment db purchaseId session now).length = db.length := by
  simp [completePurchasePayment]

/-- C4: redelivering the payment confirmation for the same session id is
idempotent — running `handleSuccessfulPayment` a second time yields
exactly the state and result a single run (at the second instant) yields,
and no call changes the number of purchase rows (no duplicate side
effects). -/
theorem handleSuccessfulPayment_idempotent (session : StripeSession)
    (db : List Purchase) (t1 t2 : Nat) :
    handleSuccessfulPayment session (handleSuccessfulPayment session db t1).1 t2
      = handleSuccessfulPayment session db t2 ∧
    (handleSuccessfulPayment session db t1).2
      = (handleSuccessfulPayment session db t2).2 ∧
    (handleSuccessfulPayment session db t1).1.length = db.length := by
  by_cases hpaid : session.payment_status = "paid"
  · cases hmeta : session.metadata_purchase_id with
    | none => simp [handleSuccessfulPayment, hpaid, hmeta]
    | some purchaseId =>
        simp [handleSuccessfulPayment, hpaid, hmeta,
          completePurchasePayment_twice, completePurchasePayment_length]
  · simp [handleSuccessfulPayment, hpaid]

/-- C5: `handleSuccessfulPayment` fails with `PaymentNotCompleted` whenever
the retrieved session's payment status is not `"paid"`, and (when paid)
with `MetadataMissing` whenever the session metadata carries no purchase
id; in both cases the purchase table is returned unchanged — no update is
performed. -/
theorem handleSuccessfulPayment_failures (session : StripeSession)
    (db : List Purchase) (now : Nat) :
    (session.payment_status ≠ "paid" →
      handleSuccessfulPayment session db now
        = (db, Except.error PaymentError.PaymentNotCompleted)) ∧
    (session.payment_status = "paid" → session.metadata_purchase_id = none →
      handleSuccessfulPayment session db now
        = (db, Except.error PaymentError.MetadataMissing)) := by
  constructor
  · intro h
    simp [handleSuccessfulPayment, h]
  · intro hpaid hmeta
    simp [handleSuccessfulPayment, hpaid, hmeta]

theorem handleSuccessfulPayment_failures_witness :
    handleSuccessfulPayment sessionUnpaid [] 0
      = ([], Except.error PaymentError.PaymentNotCompleted) ∧
    handleSuccessfulPayment sessionNoMetadata [] 0
      = ([], Except.error PaymentError.MetadataMissing) :=
  ⟨(handleSuccessfulPayment_failures sessionUnpaid [] 0).1 (by decide),
   (handleSuccessfulPayment_failures sessionNoMetadata [] 0).2 rfl rfl⟩

/-- C6 counterexample: `updatePurchaseStatus` has no guard on the current
status, so a sequence of status updates can leave a terminal state — a
purchase created `pending`, driven to `processing` and then to the
terminal `completed`, is moved back to `pending` by one further update
request. -/
theorem updatePurchaseStatus_backward_counterexample :
    pendingPurchase0.processing_status = ProcessingStatus.pending ∧
    (updatePurchaseStatus
        (updatePurchaseStatus [pendingPurchase0] "p1" ProcessingStatus.processing none 1)
        "p1" ProcessingStatus.completed none 2).map Purchase.processing_status
      = [ProcessingStatus.completed] ∧
    (updatePurchaseStatus
        (updatePurchaseStatus
          (updatePurchaseStatus [pendingPurchase0] "p1" ProcessingStatus.processing none 1)
          "p1" ProcessingStatus.completed none 2)
        "p1" ProcessingStatus.pending none 3).map Purchase.processing_status
      = [ProcessingStatus.pending] :=
  ⟨rfl, rfl, rfl⟩

/-- C6 amended: `pending` is the only entry state — `createPendingPurchase`
always creates the row with status `pending` — but `updatePurchaseStatus`
overwrites the status with whatever status the caller requests,
unconditionally: forward-only movement (and in particular never leaving a
terminal state) holds only if callers never request a backward status, not
by any guard in the operation. -/
theorem purchaseStatus_entry_pending_update_unguarded
    (clerkId : String) (cartData : CartData) (purchaseType newId : String) (t : Nat)
    (db : List Purchase) (purchaseId : String) (status : ProcessingStatus)
    (queueMetadata : Option QueueMetadata) (now : Nat) (p : Purchase)
    (hp : p ∈ db) (hid : p.id = purchaseId) :
    (createPendingPurchase clerkId cartData purchaseType newId t).processing_status
      = ProcessingStatus.pending ∧
    ∃ q ∈ updatePurchaseStatus db purchaseId status queueMetadata now,
      q.processing_status = status := by
  refine ⟨rfl, ?_⟩
  simp only [updatePurchaseStatus]
  exact ⟨_, List.mem_map_of_mem _ hp, by simp [hid]⟩

theorem purchaseStatus_entry_pending_update_unguarded_witness :
    (createPendingPurchase "u1" simpleCartData "course" "p1" 0).processing_status
      = ProcessingStatus.pending ∧
    ∃ q ∈ updatePurchaseStatus [pendingPurchase0] "p1" ProcessingStatus.pending none 3,
      q.processing_status = ProcessingStatus.pending :=
  purchaseStatus_entry_pending_update_unguarded "u1" simpleCartData "course" "p1" 0
    [pendingPurchase0] "p1" ProcessingStatus.pending none 3 pendingPurchase0
    (List.mem_singleton.mpr rfl) rfl

/-- C7 counterexample: at `expires_at == now` the claim requires access to
be DENIED, but `checkCourseAccess` filters with the inclusive
`gte('expires_at', now)` and so still GRANTS access to an entitlement
expiring exactly now. -/
theorem checkCourseAccess_boundary_counterexample :
    boundaryEnrollment.expires_at = 100 ∧
    (checkCourseAccess [boundaryEnrollment] "u1" "c1" 100).has_access = true := by
  constructor
  · rfl
  · rfl

/-- C7 amended: the expiry boundary is inconsistent in the source.  The
active/expired counts of `getUserPurchaseStats` do require strictly future
expiry — an active entitlement with `expiresAt == now` is counted expired,
not active — but `checkCourseAccess` compares inclusively
(`expires_at >= now`) and still grants access to that same entitlement. -/
theorem expiry_boundary_split (purchasesDb : List Purchase)
    (clerkId courseId : String) (e : UserEnrollment) (now : Nat)
    (hck : e.clerk_id = clerkId) (hty : e.enrollment_type = ItemType.course)
    (hit : e.item_id = courseId) (hact : e.is_active = true)
    (hexp : e.expires_at = now) :
    (checkCourseAccess [e] clerkId courseId now).has_access = true ∧
    (getUserPurchaseStats purchasesDb [e] clerkId now).activeEnrollments = 0 ∧
    (getUserPurchaseStats purchasesDb [e] clerkId now).expiredEnrollments = 1 := by
  have hpred : directPred clerkId courseId now e = true := by
    simp [directPred, hck, hty, hit, hact, hexp]
  have hfilter : List.filter (directPred clerkId courseId now) [e] = [e] := by
    simp [hpred]
  refine ⟨?_, ?_, ?_⟩
  · simp only [checkCourseAccess, hfilter]
    rfl
  · simp [getUserPurchaseStats, hck, hexp]
  · simp [getUserPurchaseStats, hck, hact, hexp]

theorem expiry_boundary_split_witness :
    (checkCourseAccess [boundaryEnrollment] "u1" "c1" 100).has_access = true ∧
    (getUserPurchaseStats [] [boundaryEnrollment] "u1" 100).activeEnrollments = 0 ∧
    (getUserPurchaseStats [] [boundaryEnrollment] "u1" 100).expiredEnrollments = 1 :=
  expiry_boundary_split [] "u1" "c1" boundaryEnrollment 100 rfl rfl rfl rfl rfl

/-- C8 counterexample: a buyer holding active, non-expired direct
entitlements for a course AND an active bundle entitlement covering it can
still get `type=bundle`: with TWO matching direct rows the `.single()`
direct lookup errors with PGRST116, which `checkCourseAccess` treats like
"no direct enrollment", so the bundle branch answers. -/
theorem checkCourseAccess_precedence_counterexample :
    directPred "u1" "c1" 100 directEnrollment1 = true ∧
    directPred "u1" "c1" 100 directEnrollment2 = true ∧
    bundlePred "u1" 100 bundleEnrollment1 = true ∧
    bundleContainsCourse "c1" bundleEnrollment1 = true ∧
    (checkCourseAccess [directEnrollment1, directEnrollment2, bundleEnrollment1]
        "u1" "c1" 100).access_type = "bundle" ∧
    (checkCourseAccess [directEnrollment1, directEnrollment2, bundleEnrollment1]
        "u1" "c1" 100).bundle_id = some "bundle1" :=
  ⟨rfl, rfl, rfl, rfl, rfl, rfl⟩

/-- C8 amended: direct access takes precedence over bundle access provided
the direct match is unique — whenever the buyer's active, non-expired
direct entitlements for the course form exactly the one row `e` (the
`.single()` lookup treats several matching rows like none), and the buyer
also holds an active, non-expired bundle entitlement covering the course,
`checkCourseAccess` returns `type=direct` with `e`'s expiry. -/
theorem checkCourseAccess_direct_precedence (db : List UserEnrollment)
    (clerkId courseId : String) (now : Nat) (e b : UserEnrollment)
    (hsingle : db.filter (directPred clerkId courseId now) = [e])
    (hb : b ∈ db) (hbundle : bundlePred clerkId now b = true)
    (hcovers : bundleContainsCourse courseId b = true) :
    checkCourseAccess db clerkId courseId now =
      { has_access := true
        access_type := "direct"
        expires_at := some e.expires_at
        enrollment_id := some e.id
        days_until_expiry := some (calculateDaysUntilExpiry e.expires_at now)
        bundle_id := none
        purchase_id := some e.purchase_id } := by
  simp only [checkCourseAccess, hsingle]
  rfl

theorem checkCourseAccess_direct_precedence_witness :
    checkCourseAccess [directEnrollment1, bundleEnrollment1] "u1" "c1" 100 =
      { has_access := true
        access_type := "direct"
        expires_at := some 200
        enrollment_id := some "d1"
        days_until_expiry := some (calculateDaysUntilExpiry 200 100)
        bundle_id := none
        purchase_id := some "p1" } :=
  checkCourseAccess_direct_precedence [directEnrollment1, bundleEnrollment1]
    "u1" "c1" 100 directEnrollment1 bundleEnrollment1
    (by decide) (by decide) (by decide) (by decide)

end ImmigreatAI
